import Mathlib

/-!
Verification of the PastPulse Telegram bot core (`src/main.py`) against its
natural-language specification.  Python functions are shallowly embedded as
executable Lean definitions over `String` / `List Char`; the external
generation service is modelled as an oracle that returns, per query, either a
text or one of the error classes the code catches.
-/

namespace PastPulse

set_option maxRecDepth 65536

/-! ### Python string primitives -/

/-- Whitespace set of Python `str.strip` / `str.split` (ASCII part). -/
def pyIsSpace (c : Char) : Bool :=
  c == ' ' || c == '\t' || c == '\n' || c == '\r' || c == '\x0b' || c == '\x0c'

/-- Python `str.lower` on the character list (ASCII). -/
def pyLowerL (l : List Char) : List Char :=
  l.map Char.toLower

/-- Python `str.lower` (ASCII). -/
def pyLower (s : String) : String :=
  ⟨pyLowerL s.data⟩

/-- Python `str.lstrip()` on a character list. -/
def pyLstripL (l : List Char) : List Char :=
  l.dropWhile pyIsSpace

/-- Python `str.rstrip()` on a character list. -/
def pyRstripL (l : List Char) : List Char :=
  (l.reverse.dropWhile pyIsSpace).reverse

/-- Python `str.strip()` on a character list. -/
def pyStripL (l : List Char) : List Char :=
  pyRstripL (pyLstripL l)

/-- Python `str.strip()`. -/
def pyStrip (s : String) : String :=
  ⟨pyStripL s.data⟩

/-- Helper for `pyWordCount`: counts maximal runs of non-whitespace characters;
the flag records whether the previous character was inside a word. -/
def countWords : List Char → Bool → Nat
  | [], _ => 0
  | c :: cs, inWord =>
    if pyIsSpace c then countWords cs false
    else (if inWord then 0 else 1) + countWords cs true

/-- Python `len(s.split())`: number of whitespace-delimited words. -/
def pyWordCount (s : String) : Nat :=
  countWords s.data false

/-- Helper for `pyTokensL`: accumulates the current token reversed. -/
def tokensGo : List Char → List Char → List (List Char)
  | [], cur => if cur.isEmpty then [] else [cur.reverse]
  | c :: cs, cur =>
    if pyIsSpace c then
      (if cur.isEmpty then tokensGo cs [] else cur.reverse :: tokensGo cs [])
    else tokensGo cs (c :: cur)

/-- Python `s.split()`: the list of whitespace-delimited tokens. -/
def pyTokensL (l : List Char) : List (List Char) :=
  tokensGo l []

/-- Executable list-prefix test (Python `s.startswith`). -/
def isPre : List Char → List Char → Bool
  | [], _ => true
  | _ :: _, [] => false
  | a :: as, b :: bs => a == b && isPre as bs

/-- Executable substring containment on character lists (Python `in`). -/
def subL : List Char → List Char → Bool
  | needle, [] => needle.isEmpty
  | needle, c :: cs => isPre needle (c :: cs) || subL needle cs

/-- Python substring containment `needle in hay` on strings. -/
def subS (needle hay : String) : Bool :=
  subL needle.data hay.data

/-- Python regex `\w` (ASCII approximation): letters, digits, underscore. -/
def isWordChar (c : Char) : Bool :=
  c.isAlphanum || c == '_'

/-- Consume an exact literal at the head of the list, returning the rest. -/
def litPre : List Char → List Char → Option (List Char)
  | [], l => some l
  | _ :: _, [] => none
  | p :: ps, c :: cs => if p == c then litPre ps cs else none

/-- Consume `\s+` (one or more whitespace characters) greedily. -/
def wsChomp : List Char → Option (List Char)
  | [] => none
  | c :: cs => if pyIsSpace c then some (cs.dropWhile pyIsSpace) else none

/-- Regex `\b` after a word character: next char (if any) is a non-word char. -/
def wordBoundary : List Char → Bool
  | [] => true
  | c :: _ => !(isWordChar c)

/-- Scans the list for a match of `here` that starts at a `\b` boundary
(position 0 or right after a non-word character). -/
def searchB (here : List Char → Bool) : Bool → List Char → Bool
  | _, [] => false
  | prevWord, c :: cs => (!prevWord && here (c :: cs)) || searchB here (isWordChar c) cs

/-- Match of `(150|250)\b` at the current position. -/
def numHere (l : List Char) : Bool :=
  (match litPre "150".data l with
   | some r => wordBoundary r
   | none => false)
  ||
  (match litPre "250".data l with
   | some r => wordBoundary r
   | none => false)

/-- Match of `evaluate\s+my\s+(answer|pdf)\b` at the current position
(on already-lowercased text, mirroring `re.IGNORECASE`). -/
def evalHere (l : List Char) : Bool :=
  match litPre "evaluate".data l with
  | none => false
  | some r1 =>
    match wsChomp r1 with
    | none => false
    | some r2 =>
      match litPre "my".data r2 with
      | none => false
      | some r3 =>
        match wsChomp r3 with
        | none => false
        | some r4 =>
          (match litPre "answer".data r4 with
           | some r5 => wordBoundary r5
           | none => false)
          ||
          (match litPre "pdf".data r4 with
           | some r5 => wordBoundary r5
           | none => false)

/-! ### Constants and small detectors from `main.py` -/

/-- The fixed refusal sentinel (`REFUSAL` in `main.py`). -/
def REFUSAL : String :=
  "Not found in faculty documents. Ask faculty to upload the relevant material."

/-- `is_mcq_request` from `main.py`: any of the MCQ indicator keywords occurs
in the lowercased text. -/
def is_mcq_request (user_text : String) : Bool :=
  let t := pyLower user_text
  subS "mcq" t || subS "mcqs" t || subS "multiple choice" t || subS "prelims" t
    || subS "objective" t || subS "choose the correct" t

/-- `is_mains_request` from `main.py`: the regex `\b(150|250)\b` matches, or
"mains" occurs, or a common mains directive verb occurs. -/
def is_mains_request (user_text : String) : Bool :=
  let t := pyLower user_text
  if searchB numHere false t.data then true
  else if subS "mains" t then true
  else
    subS "discuss" t || subS "analyse" t || subS "analyze" t || subS "critically" t
      || subS "examine" t || subS "comment" t || subS "elucidate" t || subS "explain" t

/-- `looks_like_mains_pack` from `main.py`: all six required section markers
occur in the lowercased text. -/
def looks_like_mains_pack (text : String) : Bool :=
  let t := pyLower text
  subS "introduction" t && subS "conclusion" t && subS "timeline" t
    && subS "mindmap" t && subS "keywords" t && subS "pyq frequency" t

/-- `is_evaluation_request` from `main.py`: the text is nonempty and
`EVAL_PAT = \bevaluate\s+my\s+(answer|pdf)\b` (case-insensitive) matches. -/
def is_evaluation_request (text : String) : Bool :=
  (text != "") && searchB evalHere false (pyLowerL text.data)

/-- `parse_marker_max` from `main.py`: decide MAX = 10/15/20 from the hint
text, else infer from the answer's word count. -/
def parse_marker_max (text answer_text : String) : Nat :=
  let t := pyLower text
  if subS "20" t && subS "marker" t then 20
  else if subS "15" t && subS "marker" t then 15
  else if subS "10" t && subS "marker" t then 10
  else
    let wc := pyWordCount answer_text
    if wc ≥ 330 then 20
    else if wc ≥ 200 then 15
    else 10

/-! ### `strip_eval_directive` and its line splitting -/

/-- Python `str.splitlines` worker: `cur` holds the current line reversed.
Models the `\n`, `\r\n` and `\r` line terminators.  The fuel argument is only
there for structural recursion; every step consumes at least one character, so
fuel = length of the remaining list never runs out. -/
def pySplitGo : Nat → List Char → List Char → List (List Char)
  | _, [], cur => [cur.reverse]
  | 0, l, cur => [cur.reverse ++ l]
  | fuel + 1, c :: rest, cur =>
    if c == '\r' then
      match rest with
      | '\n' :: rest2 => cur.reverse :: (if rest2.isEmpty then [] else pySplitGo fuel rest2 [])
      | _ => cur.reverse :: (if rest.isEmpty then [] else pySplitGo fuel rest [])
    else if c == '\n' then cur.reverse :: (if rest.isEmpty then [] else pySplitGo fuel rest [])
    else pySplitGo fuel rest (c :: cur)

/-- Python `str.splitlines()` (a trailing terminator yields no empty line). -/
def pySplitLines (l : List Char) : List (List Char) :=
  if l.isEmpty then [] else pySplitGo l.length l []

/-- `"\n".join` on character lists. -/
def joinNL : List (List Char) → List Char
  | [] => []
  | [l] => l
  | l :: ls => l ++ '\n' :: joinNL ls

/-- `strip_eval_directive` from `main.py`: strip each line, drop lines where
`EVAL_PAT` matches, re-join with newlines and strip the result. -/
def strip_eval_directive (text : String) : String :=
  if text = "" then ""
  else
    ⟨pyStripL (joinNL (((pySplitLines text.data).map pyStripL).filter
      (fun ln => !(searchB evalHere false (pyLowerL ln)))))⟩

/-! ### `_clean_extracted_text` -/

/-- First substitution of `_clean_extracted_text`: collapse runs of spaces and
tabs to a single space; the flag records whether the previous character was in
such a run. -/
def collapseST : List Char → Bool → List Char
  | [], _ => []
  | c :: cs, inRun =>
    if c == ' ' || c == '\t' then
      (if inRun then [] else [' ']) ++ collapseST cs true
    else c :: collapseST cs false

/-- Second substitution of `_clean_extracted_text`: cap runs of newlines at
two (`re.sub(r"\n{3,}", "\n\n", s)`); `k` counts emitted newlines in the
current run. -/
def capNL : List Char → Nat → List Char
  | [], _ => []
  | c :: cs, k =>
    if c == '\n' then (if k ≥ 2 then [] else ['\n']) ++ capNL cs (k + 1)
    else c :: capNL cs 0

/-- `_clean_extracted_text` from `main.py`. -/
def clean_extracted_text (s : String) : String :=
  ⟨pyStripL (capNL (collapseST s.data false) 0)⟩

/-! ### The evidence-gated answer engine (`docs_only_answer_sync`) -/

/-- `has_quote` check of `docs_only_answer_sync`: the text contains a straight
or curly double-quotation-mark character. -/
def hasQuote (s : String) : Bool :=
  s.data.contains '"' || s.data.contains '“' || s.data.contains '”'

/-- One response of the generation service, as seen through the `openai`
exceptions the code catches: a returned text, or one of the error classes. -/
inductive GenOutcome where
  | ok (text : String)
  | connError
  | rateLimit
  | statusError (m : String)
  | otherError
deriving DecidableEq

/-- The error classes that can escape the synchronous code into the
`try/except` wrappers. -/
inductive ApiErr where
  | conn
  | rate
  | status (m : String)
  | other
deriving DecidableEq

/-- Result of `docs_only_answer_sync`: either the returned string together
with the ordered list of queries issued to the generation service, or a
raised error. -/
inductive DocsOut where
  | answer (s : String) (queries : List String)
  | raised (e : ApiErr)
deriving DecidableEq

/-- `wrap_user_query` from `main.py`: the fixed operating-rules template with
the user question appended, then `.strip()`-ed. -/
def wrap_user_query (user_text : String) : String :=
  pyStrip ("Follow these operating rules STRICTLY:\n1) Only GS-1 History + Indian Art & Culture.\n2) Use ONLY faculty documents via file_search. No outside knowledge.\n3) If not supported by faculty documents, reply EXACTLY: "
    ++ REFUSAL
    ++ "\n4) For factual/content answers, include at least ONE short direct quote (1–2 lines) from the faculty documents.\n5) If question asks 150/250 words or is MAINS-style → MUST output:\n   - Introduction\n   - Body (analytical subheadings)\n   - Conclusion\n   - Chronological Timeline (5–10 bullets)\n   - Conceptual Mindmap (ASCII)\n   - High-Value Keywords (8–15)\n   - PYQ Frequency Band (High/Medium/Low) without inventing years\n6) If user asks MCQs → follow UPSC Prelims format with Answer Key + elimination for each wrong option.\n\nUser question:\n"
    ++ user_text)

/-- The `reform_request` message built inside `docs_only_answer_sync` when a
mains-style answer is missing required sections. -/
def reform_request (text : String) : String :=
  pyStrip ("Reformat the following answer into the mandated UPSC MAINS ENRICHMENT PACK structure:\n- Introduction\n- Body (analytical subheadings)\n- Conclusion\n- Chronological Timeline (5–10 bullets)\n- Conceptual Mindmap (ASCII)\n- High-Value Keywords (8–15)\n- PYQ Frequency Band (High/Medium/Low) without inventing years\n\nCRITICAL CONSTRAINTS:\n- Do NOT add any new facts beyond what is already present OR what is retrieved from faculty documents.\n- Use ONLY faculty documents via file_search.\n- Include at least ONE short direct quote (1–2 lines) as evidence.\n- If not supported, reply EXACTLY: "
    ++ REFUSAL
    ++ "\n\nTEXT TO REFORMAT:\n"
    ++ text)

/-- `docs_only_answer_sync` from `main.py`.  `gen` is the generation-service
oracle: `_assistant_run` sends a query and yields the (stripped) final message
text, or raises.  The returned `queries` list records every generation call
issued, in order. -/
def docs_only_answer_sync (gen : String → GenOutcome) (user_text : String) : DocsOut :=
  let wrapped := wrap_user_query user_text
  match gen wrapped with
  | .connError => .raised .conn
  | .rateLimit => .raised .rate
  | .statusError m => .raised (.status m)
  | .otherError => .raised .other
  | .ok raw =>
    let text := pyStrip raw
    if text = "" then .answer REFUSAL [wrapped]
    else if subS REFUSAL text then .answer REFUSAL [wrapped]
    else if !(hasQuote text) then .answer REFUSAL [wrapped]
    else if !(is_mcq_request user_text) && is_mains_request user_text then
      if looks_like_mains_pack text then .answer text [wrapped]
      else
        let reform := reform_request text
        match gen reform with
        | .connError => .raised .conn
        | .rateLimit => .raised .rate
        | .statusError m => .raised (.status m)
        | .otherError => .raised .other
        | .ok raw2 =>
          let text2 := pyStrip raw2
          if (text2 != "") && !(subS REFUSAL text2) then
            (if hasQuote text2 then .answer text2 [wrapped, reform]
             else .answer REFUSAL [wrapped, reform])
          else if (text2 != "") && subS REFUSAL text2 then
            .answer REFUSAL [wrapped, reform]
          else .answer text [wrapped, reform]
    else .answer text [wrapped]

/-- `docs_only_answer` from `main.py`: the `try/except` wrapper that converts
each error class into its fixed user-facing message. -/
def docs_only_answer (gen : String → GenOutcome) (user_text : String) : String :=
  match docs_only_answer_sync gen user_text with
  | .answer s _ => s
  | .raised .conn => "⚠️ OpenAI connection error. Try again."
  | .raised .rate => "⚠️ Too many requests. Try again after 1 minute."
  | .raised (.status m) => "⚠️ OpenAI API error: " ++ m
  | .raised .other => "Unexpected server error. Please try again."

/-! ### The evaluation engine (`evaluate_answer_sync`) -/

/-- `EVAL_SYSTEM_PROMPT` from `main.py` (the `.strip()`-ed literal). -/
def EVAL_SYSTEM_PROMPT : String :=
  "You are a strict UPSC GS-1 examiner and mentor.\n\nYou ONLY evaluate answers that belong to GS-1 History & Indian Art and Culture\n(Ancient/Medieval/Modern Indian History, prescribed World History themes, Post-Independence as historical processes, Indian Art & Culture).\nIf the answer is clearly not from GS-1 History/Art & Culture, refuse:\n\n\"Refusal (Out of GS-1 History/Art & Culture): I can’t evaluate this because it is not GS-1 History/Art & Culture.\"\n\nEvaluation format (MANDATORY):\nA) Overall Examiner Impression (1–2 lines)\nB) Estimated Score: X / MAX\n   - Add: \"This is an estimated, approximate score — not an official UPSC marking.\"\nC) What is GOOD (Strengths) (bullets)\nD) What is MISSING / WEAK (Gaps) (bullets)\nE) What is BAD (Critical faults, if any) (bullets)\nF) UPSC-Level Improvements (Actionable tips) (bullets)\nG) Value Addition (Rewrite Add-on)\n   - Provide a rewritten improved answer in UPSC style within the expected word limit for the marker.\n\nMarker mapping:\n- 10 marker ≈ 150 words\n- 15 marker ≈ 250 words\n- 20 marker ≈ 350–400 words\n\nTone: strict, examiner-like. No fluff."

/-- The `user_prompt` f-string built by `evaluate_answer_sync` (stripped). -/
def user_prompt (marker_max : Nat) (answer_text : String) : String :=
  pyStrip ("Marker: " ++ toString marker_max ++ " marker (MAX = " ++ toString marker_max
    ++ ")\nExpected length guidance:\n- 10 marker ≈ 150 words\n- 15 marker ≈ 250 words\n- 20 marker ≈ 350–400 words\n\nNow evaluate the student\x27s answer below:\n\n--- STUDENT ANSWER START ---\n"
    ++ answer_text
    ++ "\n--- STUDENT ANSWER END ---")

/-- The retry loop of `evaluate_answer_sync` (`for attempt in range(3)`).
`gen prompt attempt` is the outcome of the chat-completions call at the given
attempt; `fuel` is the number of retries still allowed (`fuel = 2 - attempt`),
so `fuel = 0` is the last attempt, where transient errors are surfaced as
their fixed messages instead of retried. -/
def evalTry (gen : String → Nat → GenOutcome) (prompt : String) : Nat → Nat → String
  | attempt, 0 =>
    match gen prompt attempt with
    | .ok t => pyStrip t
    | .connError => "⚠️ OpenAI connection error. Try again."
    | .rateLimit => "⚠️ Too many requests. Try again after 1 minute."
    | .statusError m => "⚠️ OpenAI API error: " ++ m
    | .otherError => "Unexpected server error during evaluation. Please try again."
  | attempt, fuel + 1 =>
    match gen prompt attempt with
    | .ok t => pyStrip t
    | .connError => evalTry gen prompt (attempt + 1) fuel
    | .rateLimit => evalTry gen prompt (attempt + 1) fuel
    | .statusError m => "⚠️ OpenAI API error: " ++ m
    | .otherError => "Unexpected server error during evaluation. Please try again."

/-- `evaluate_answer_sync` from `main.py`: strip the submitted answer, refuse
blank input, then call the generation service with up to three attempts. -/
def evaluate_answer_sync (gen : String → Nat → GenOutcome) (answer_text : String)
    (marker_max : Nat) : String :=
  let a := pyStrip answer_text
  if a = "" then
    "⚠️ I couldn’t read any text from your answer. Please upload a clearer scan or paste typed text."
  else evalTry gen (user_prompt marker_max a) 0 2

/-! ### The output segmenter (`split_telegram_chunks`) -/

/-- Python `s.rfind(needle, 0, e)`: the largest index of an occurrence of
`needle` lying entirely inside `s[0:e]`, as an `Option`. -/
def pyRfind (needle l : List Char) (e : Nat) : Option Nat :=
  ((List.range (e + 1)).filter
    (fun i => decide (i + needle.length ≤ min e l.length) && isPre needle (l.drop i))).getLast?

/-- The cut-point computation of one `split_telegram_chunks` loop iteration:
last `"\n\n"` before the limit, falling back (when absent or below position
800) to the last `"\n"`, then to a hard cut at the limit. -/
def computeCut (remaining : List Char) (limit : Nat) : Nat :=
  let cut1 :=
    match pyRfind ['\n', '\n'] remaining limit with
    | some i => if i < 800 then none else some i
    | none => none
  match cut1 with
  | some i => i
  | none =>
    match pyRfind ['\n'] remaining limit with
    | some j => if j < 800 then limit else j
    | none => limit

/-- The `while len(remaining) > limit` loop of `split_telegram_chunks`,
including the final `if remaining: parts.append(remaining)`.  Fuel is for
structural recursion only: each iteration shortens `remaining` by at least one
character whenever `limit ≥ 1`, so fuel = initial length never runs out. -/
def splitLoop (limit : Nat) : Nat → List Char → List (List Char)
  | fuel, remaining =>
    if remaining.length ≤ limit then
      (if remaining.isEmpty then [] else [remaining])
    else
      match fuel with
      | 0 => [remaining]
      | fuel' + 1 =>
        let cut := computeCut remaining limit
        pyRstripL (remaining.take cut) :: splitLoop limit fuel' (pyLstripL (remaining.drop cut))

/-- `split_telegram_chunks` from `main.py` (the call sites use `limit = 3900`). -/
def split_telegram_chunks (text : String) (limit : Nat) : List String :=
  if text.length ≤ limit then [text]
  else (splitLoop limit text.data.length text.data).map (fun l => String.mk l)

/-- Interleaves chunks with the separator texts trimmed away at each cut:
`joinCS [c1, c2, ...] [s1, s2, ...] = c1 ++ s1 ++ c2 ++ s2 ++ ...`. -/
def joinCS : List (List Char) → List (List Char) → List Char
  | [], _ => []
  | c :: cs, [] => c ++ joinCS cs []
  | c :: cs, s :: ss => c ++ s ++ joinCS cs ss

/-! ### Telegram handler flows (student submissions and messages) -/

/-- The per-user mutable state the handlers touch (`context.user_data`). -/
structure UserData where
  last_answer_text : String
deriving DecidableEq

/-- The reply a student-submission handler branch produces:
`unreadable` is the clearer-resubmission prompt (no score), `evaluated`
records an evaluation request on the given answer and marker level,
`received` is the received-acknowledgement. -/
inductive SubmitReply where
  | unreadable
  | evaluated (answer : String) (marker : Nat)
  | received
deriving DecidableEq

/-- The student-PDF branch of `handle_document`: the cache is overwritten
with the extracted text first, then the word-count gate and the
caption-triggered evaluation run. -/
def handle_pdf_submission (ud : UserData) (extracted caption : String) :
    UserData × SubmitReply :=
  let ud := { ud with last_answer_text := extracted }
  (ud,
    if extracted = "" ∨ pyWordCount extracted < 10 then .unreadable
    else if is_evaluation_request caption then
      .evaluated extracted (parse_marker_max caption extracted)
    else .received)

/-- The student-TXT branch of `handle_document`: decoded bytes are cleaned
with `_clean_extracted_text`, the cache is overwritten, and there is no
word-count gate. -/
def handle_txt_submission (ud : UserData) (decoded caption : String) :
    UserData × SubmitReply :=
  let text := clean_extracted_text decoded
  let ud := { ud with last_answer_text := text }
  (ud,
    if is_evaluation_request caption then
      .evaluated text (parse_marker_max caption text)
    else .received)

/-- `handle_photo` student flow: OCR text overwrites the cache, then the
word-count gate and the caption-triggered evaluation run. -/
def handle_photo_submission (ud : UserData) (extracted caption : String) :
    UserData × SubmitReply :=
  let ud := { ud with last_answer_text := extracted }
  (ud,
    if extracted = "" ∨ pyWordCount extracted < 10 then .unreadable
    else if is_evaluation_request caption then
      .evaluated extracted (parse_marker_max caption extracted)
    else .received)

/-- What `handle_message` decides to do with a text message. -/
inductive MsgAction where
  | evalInline (answer : String) (marker : Nat)
  | evalCached (answer : String) (marker : Nat)
  | askResubmit
  | docsAnswer
deriving DecidableEq

/-- The decision logic of `handle_message` from `main.py`: the incoming text
is stripped; on an evaluation request, an inline answer of at least 30 words
(after stripping the directive lines) is evaluated, else the cached answer is
evaluated unless it is empty or under 10 words. -/
def handle_message_action (message_text : String) (ud : UserData) : MsgAction :=
  let user_text := pyStrip message_text
  if is_evaluation_request user_text then
    let possible_answer := strip_eval_directive user_text
    if 30 ≤ pyWordCount possible_answer then
      .evalInline possible_answer (parse_marker_max user_text possible_answer)
    else
      let cached := ud.last_answer_text
      if cached = "" ∨ pyWordCount cached < 10 then .askResubmit
      else .evalCached cached (parse_marker_max user_text cached)
  else .docsAnswer

/-! ### Spec-side definitions, for comparison with the code

The following definitions are written from the specification's wording, not
from the source; they exist so that spec claims can be stated and compared
against the embedded code. -/

/-- Modelled from the spec: a "recognizable word shape" — a token containing
at least two alphabetic characters with a non-alphabetic character possibly
between them (§4.2 of the spec; no such notion exists in `main.py`). -/
def readableTok : List Char → Bool
  | [] => false
  | [_] => false
  | a :: b :: rest =>
    (a.isAlpha && (b.isAlpha || (match rest with | c :: _ => c.isAlpha | [] => false)))
      || readableTok (b :: rest)

/-- Modelled from the spec: the Readability Classifier of §4.2 — unreliable
iff fewer than 10 words, or readable-token fraction below 0.45, or
non-alphanumeric non-whitespace character fraction above 0.25 (fractions
compared via integer cross-multiplication).  No such classifier exists in
`main.py`; the code's gate is only the word count. -/
def specUnreliable (text : String) : Bool :=
  let toks := pyTokensL text.data
  let words := toks.length
  if words < 10 then true
  else
    let readable := (toks.filter readableTok).length
    let chars := text.data.length
    let nonAl := (text.data.filter (fun c => !(c.isAlphanum || pyIsSpace c))).length
    (100 * readable < 45 * words : Bool) || (100 * nonAl > 25 * chars : Bool)

/-- Modelled from the spec: the rendered evaluation contains sub-scores for
the five fixed rubric dimensions, here checked as containment of the five
dimension names (§4.4 output contract; `main.py` never mentions them). -/
def hasAllDims (text : String) : Bool :=
  subS "Structure" text && subS "Relevance" text && subS "Content" text
    && subS "Analysis" text && subS "Presentation" text

/-- Drop up to and including the first occurrence of `needle`; `none` when
`needle` does not occur. -/
def dropToAfter (needle : List Char) : List Char → Option (List Char)
  | [] => if needle.isEmpty then some [] else none
  | c :: cs =>
    if isPre needle (c :: cs) then some ((c :: cs).drop needle.length)
    else dropToAfter needle cs

/-- Numeric value of a digit list. -/
def digitsToNat (ds : List Char) : Nat :=
  ds.foldl (fun acc c => 10 * acc + (c.toNat - '0'.toNat)) 0

/-- Modelled from the spec: the total score reported inside a rendered
evaluation, read from the mandated `"Estimated Score: X / MAX"` line of
`EVAL_SYSTEM_PROMPT` section B (`main.py` itself never parses a score). -/
def reportedTotal (text : String) : Option Nat :=
  match dropToAfter "Estimated Score: ".data text.data with
  | none => none
  | some rest =>
    let ds := rest.takeWhile Char.isDigit
    if ds.isEmpty then none else some (digitsToNat ds)

/-- Claim C2 as stated: for a structured (mains, non-MCQ) question whose
first stripped response passes the quotation gate but lacks a required
section, exactly one reformat request is issued, and the reformatted text is
returned iff it contains all required sections and a quotation, the refusal
sentinel otherwise. -/
def claimC2 : Prop :=
  ∀ (gen : String → GenOutcome) (ut r1 r2 : String),
    gen (wrap_user_query ut) = GenOutcome.ok r1 →
    gen (reform_request (pyStrip r1)) = GenOutcome.ok r2 →
    is_mains_request ut = true →
    is_mcq_request ut = false →
    pyStrip r1 ≠ "" →
    subS REFUSAL (pyStrip r1) = false →
    hasQuote (pyStrip r1) = true →
    looks_like_mains_pack (pyStrip r1) = false →
    docs_only_answer_sync gen ut =
      DocsOut.answer
        (if looks_like_mains_pack (pyStrip r2) && hasQuote (pyStrip r2)
          then pyStrip r2 else REFUSAL)
        [wrap_user_query ut, reform_request (pyStrip r1)]

/-- Claim C4 as stated, restricted to its code-expressible hypotheses: for a
non-blank submission of at least 30 words that the spec's own readability
classifier accepts, the total reported in the returned evaluation is strictly
positive.  ("On-topic" is semantic; the concrete counterexample input is an
on-topic history paragraph.) -/
def claimC4 : Prop :=
  ∀ (gen : String → Nat → GenOutcome) (answer : String) (marker t : Nat),
    pyStrip answer ≠ "" →
    30 ≤ pyWordCount answer →
    specUnreliable answer = false →
    reportedTotal (evaluate_answer_sync gen answer marker) = some t →
    0 < t

/-- Claim C5 as stated: the scoring gate refuses (replies the
clearer-resubmission prompt) exactly when the spec's readability classifier
says "unreliable". -/
def claimC5 : Prop :=
  ∀ (ud : UserData) (text caption : String),
    (handle_photo_submission ud text caption).2 = SubmitReply.unreadable
      ↔ specUnreliable text = true

/-- Claim C7 as stated (its dimension-containment part, whose failure already
falsifies the claimed conjunction): every rendered evaluation produced from a
successful generation on a non-blank submission contains sub-scores for the
five fixed rubric dimensions. -/
def claimC7 : Prop :=
  ∀ (gen : String → Nat → GenOutcome) (answer : String) (marker : Nat) (t : String),
    pyStrip answer ≠ "" →
    gen (user_prompt marker (pyStrip answer)) 0 = GenOutcome.ok t →
    hasAllDims (evaluate_answer_sync gen answer marker) = true

/-! ### Concrete test inputs used by counterexamples and witnesses -/

/-- A mains-style question ("discuss", "250"), not an MCQ request. -/
def cexUserText : String :=
  "Discuss the causes of the revolt of 1857 in 250 words"

/-- A first response passing the quotation gate but missing all required
section markers. -/
def cexFirstResponse : String :=
  "\"The revolt began in Meerut in May 1857.\" It then spread to Delhi."

/-- A reformat response that still lacks the required sections but does carry
a quotation and no refusal sentinel. -/
def cexReformResponse : String :=
  "\"The revolt began in Meerut in May 1857.\" Reformatted without the mandated sections."

/-- Oracle answering the wrapped question with `cexFirstResponse` and the
reformat request (recognized by its fixed header) with `cexReformResponse`. -/
def cexGen : String → GenOutcome :=
  fun q => if subS "TEXT TO REFORMAT" q then .ok cexReformResponse else .ok cexFirstResponse

/-- An on-topic, readable 31-word history submission. -/
def cexAnswerC4 : String :=
  "The Quit India Movement of 1942 was a mass civil disobedience campaign launched by Gandhi demanding an immediate end to British rule in India after the failure of the Cripps Mission."

/-- Oracle whose evaluation reports a zero total. -/
def cexGenC4 : String → Nat → GenOutcome :=
  fun _ _ => .ok "Estimated Score: 0 / 10"

/-- A non-blank on-topic submission for the C7 counterexample. -/
def cexAnswerC7 : String :=
  "The Chola temples at Thanjavur represent the peak of Dravidian architecture under royal patronage in the eleventh century."

/-- Oracle whose evaluation carries a score line but no rubric dimensions. -/
def cexGenC7 : String → Nat → GenOutcome :=
  fun _ _ => .ok "Estimated Score: 3 / 10\nGood attempt overall."

/-- Ten whitespace-delimited all-symbol tokens: ≥ 10 words for the code's
gate, yet zero recognizable word shapes for the spec's classifier. -/
def cexSymbols : String :=
  "@@ @@ @@ @@ @@ @@ @@ @@ @@ @@"

/-! ## Helper lemmas -/

theorem isPre_iff : ∀ {n l : List Char}, isPre n l = true ↔ n <+: l
  | [], l => by simp [isPre, List.nil_prefix]
  | _ :: _, [] => by simp [isPre]
  | a :: as, b :: bs => by
    simp only [isPre, Bool.and_eq_true, beq_iff_eq, List.cons_prefix_cons,
      isPre_iff (n := as) (l := bs)]

theorem subL_iff : ∀ {n l : List Char}, subL n l = true ↔ n <:+: l
  | n, [] => by simp [subL, List.infix_nil, List.isEmpty_iff]
  | n, c :: cs => by
    simp [subL, isPre_iff, subL_iff (n := n) (l := cs), List.infix_cons_iff]

/-- A pattern starting with a character the predicate rejects survives
`dropWhile`. -/
theorem infix_dropWhile_of_head (p : Char → Bool) {c : Char} {cs m : List Char}
    (hc : p c = false) (h : (c :: cs) <:+: m) : (c :: cs) <:+: m.dropWhile p := by
  obtain ⟨s, t, rfl⟩ := h
  induction s with
  | nil =>
    simp only [List.nil_append, List.cons_append]
    rw [List.dropWhile_cons_of_neg (by simp [hc])]
    exact ⟨[], t, by simp⟩
  | cons d s ih =>
    simp only [List.cons_append]
    by_cases hd : p d
    · rw [List.dropWhile_cons_of_pos hd]
      simpa using ih
    · rw [List.dropWhile_cons_of_neg (by simp [hd])]
      exact ⟨d :: s, t, by simp⟩

/-- Membership in the stripped list implies membership in the original. -/
theorem mem_of_mem_pyStripL {x : Char} {l : List Char} (h : x ∈ pyStripL l) : x ∈ l := by
  unfold pyStripL pyRstripL pyLstripL at h
  rw [List.mem_reverse] at h
  have h2 : x ∈ (l.dropWhile pyIsSpace).reverse := (List.dropWhile_sublist _).mem h
  rw [List.mem_reverse] at h2
  exact (List.dropWhile_sublist _).mem h2

/-- A substring whose first and last characters are not whitespace survives
Python `str.strip()`. -/
theorem subS_pyStrip (needle raw : String)
    (hne : needle.data ≠ [])
    (hh : pyIsSpace (needle.data.headD ' ') = false)
    (hl : pyIsSpace (needle.data.reverse.headD ' ') = false)
    (h : subS needle raw = true) : subS needle (pyStrip raw) = true := by
  obtain ⟨c, cs, hcs⟩ := List.exists_cons_of_ne_nil hne
  have hinf : (c :: cs) <:+: raw.data := by
    have := subL_iff.mp h
    rwa [hcs] at this
  have hc : pyIsSpace c = false := by rw [hcs] at hh; simpa using hh
  have hA : (c :: cs) <:+: pyLstripL raw.data := infix_dropWhile_of_head pyIsSpace hc hinf
  have hB : (c :: cs).reverse <:+: (pyLstripL raw.data).reverse := List.reverse_infix.mpr hA
  obtain ⟨d, ds, hds⟩ :
      ∃ d ds, (c :: cs).reverse = d :: ds :=
    List.exists_cons_of_ne_nil (by simp)
  have hd : pyIsSpace d = false := by
    rw [hcs] at hl
    rw [hds] at hl
    simpa using hl
  rw [hds] at hB
  have hC : (d :: ds) <:+: ((pyLstripL raw.data).reverse).dropWhile pyIsSpace :=
    infix_dropWhile_of_head pyIsSpace hd hB
  have hD : (c :: cs) <:+: pyStripL raw.data := by
    unfold pyStripL pyRstripL
    rw [← List.reverse_infix, List.reverse_reverse, hds]
    exact hC
  rw [subS, hcs]
  exact subL_iff.mpr hD

/-- A quotation mark present in the stripped text was present in the raw
text. -/
theorem hasQuote_strip_mono {r : String} (h : hasQuote (pyStrip r) = true) :
    hasQuote r = true := by
  have cmem : ∀ (l : List Char) (a : Char), l.contains a = true ↔ a ∈ l := by
    intro l a; simp
  simp only [hasQuote, Bool.or_eq_true, cmem] at h ⊢
  have hmem : ∀ {x : Char}, x ∈ (pyStrip r).data → x ∈ r.data := fun hx =>
    mem_of_mem_pyStripL hx
  rcases h with (h | h) | h
  · exact Or.inl (Or.inl (hmem h))
  · exact Or.inl (Or.inr (hmem h))
  · exact Or.inr (hmem h)

/-! ## Claim theorems -/

/-- C1: whenever the generation service's response to the wrapped query is
empty, or contains the fixed refusal sentinel as a substring, or contains no
double-quotation-mark character (straight or curly), `docs_only_answer_sync`
returns exactly the fixed refusal sentinel, after a single generation call. -/
theorem C1_refusal_verbatim (gen : String → GenOutcome) (ut r : String)
    (hr : gen (wrap_user_query ut) = GenOutcome.ok r)
    (hcond : r = "" ∨ subS REFUSAL r = true ∨ hasQuote r = false) :
    docs_only_answer_sync gen ut = DocsOut.answer REFUSAL [wrap_user_query ut] := by
  simp only [docs_only_answer_sync, hr]
  by_cases h0 : pyStrip r = ""
  · simp [h0]
  · by_cases h1 : subS REFUSAL (pyStrip r) = true
    · simp [h0, h1]
    · have hq : hasQuote (pyStrip r) = false := by
        rcases hcond with hc | hc | hc
        · exact absurd (by rw [hc]; rfl) h0
        · exact absurd (subS_pyStrip REFUSAL r (by decide) (by decide) (by decide) hc) h1
        · cases hq2 : hasQuote (pyStrip r)
          · rfl
          · exact absurd (hasQuote_strip_mono hq2) (by simp [hc])
      simp [h0, h1, hq]

/-- Witness for C1 at a concrete quotation-free response. -/
theorem C1_refusal_verbatim_witness :
    docs_only_answer_sync (fun _ => GenOutcome.ok "The Harappan cities declined gradually.")
      "when did Harappa decline" =
      DocsOut.answer REFUSAL [wrap_user_query "when did Harappa decline"] :=
  C1_refusal_verbatim _ _ "The Harappan cities declined gradually." rfl
    (Or.inr (Or.inr (by decide)))

/-- C2 (amended): for a structured question whose first stripped response
passes the quotation gate but lacks a required section, exactly one reformat
request is issued; the reformatted (stripped) text is returned if it is
nonempty, free of the refusal sentinel and carries a quotation — its sections
are NOT re-checked; the refusal sentinel is returned if the reformatted text
is nonempty but contains the sentinel or lacks a quotation; and if the
reformatted text is empty, the original first response is returned. -/
theorem C2_one_reformat_gate (gen : String → GenOutcome) (ut r1 r2 : String)
    (hmains : is_mains_request ut = true)
    (hmcq : is_mcq_request ut = false)
    (h1 : gen (wrap_user_query ut) = GenOutcome.ok r1)
    (hne : pyStrip r1 ≠ "")
    (hns : subS REFUSAL (pyStrip r1) = false)
    (hq : hasQuote (pyStrip r1) = true)
    (hpack : looks_like_mains_pack (pyStrip r1) = false)
    (h2 : gen (reform_request (pyStrip r1)) = GenOutcome.ok r2) :
    docs_only_answer_sync gen ut =
      DocsOut.answer
        (if pyStrip r2 = "" then pyStrip r1
         else if subS REFUSAL (pyStrip r2) then REFUSAL
         else if hasQuote (pyStrip r2) then pyStrip r2
         else REFUSAL)
        [wrap_user_query ut, reform_request (pyStrip r1)] := by
  simp only [docs_only_answer_sync, h1, h2, hmains, hmcq, hns, hq, hpack,
    Bool.not_false, Bool.not_true, Bool.true_and, Bool.and_true, Bool.false_and,
    if_neg hne, if_false, Bool.false_eq_true, if_pos]
  by_cases e2 : pyStrip r2 = ""
  · simp [e2]
  · by_cases s2 : subS REFUSAL (pyStrip r2) = true
    · simp [e2, s2, bne_iff_ne]
    · by_cases q2 : hasQuote (pyStrip r2) = true
      · simp [e2, s2, q2, bne_iff_ne]
      · simp [e2, s2, q2, bne_iff_ne]

/-- Witness for C2 (amended) at the concrete oracle: the reformatted text is
returned even though it still lacks every required section. -/
theorem C2_one_reformat_gate_witness :
    docs_only_answer_sync cexGen cexUserText =
      DocsOut.answer (pyStrip cexReformResponse)
        [wrap_user_query cexUserText, reform_request (pyStrip cexFirstResponse)] := by
  have h := C2_one_reformat_gate cexGen cexUserText cexFirstResponse cexReformResponse
    (by decide) (by decide) (by decide) (by decide) (by decide) (by decide) (by decide)
    (by decide)
  rw [h]
  have hval :
      (if pyStrip cexReformResponse = "" then pyStrip cexFirstResponse
       else if subS REFUSAL (pyStrip cexReformResponse) then REFUSAL
       else if hasQuote (pyStrip cexReformResponse) then pyStrip cexReformResponse
       else REFUSAL) = pyStrip cexReformResponse := by decide
  rw [hval]

/-- Counterexample to C2 as stated: with a reformatted response that carries a
quotation but still lacks the required sections, the engine returns the
reformatted text, not the refusal sentinel the claim demands. -/
theorem C2_claim_false : ¬ claimC2 := by
  intro h
  have hinst := h cexGen cexUserText cexFirstResponse cexReformResponse
    (by decide) (by decide) (by decide) (by decide) (by decide) (by decide) (by decide)
    (by decide)
  have hrhs :
      (if looks_like_mains_pack (pyStrip cexReformResponse)
          && hasQuote (pyStrip cexReformResponse)
        then pyStrip cexReformResponse else REFUSAL) = REFUSAL := by decide
  rw [hrhs] at hinst
  have hccomp : docs_only_answer_sync cexGen cexUserText =
      DocsOut.answer (pyStrip cexReformResponse)
        [wrap_user_query cexUserText, reform_request (pyStrip cexFirstResponse)] := by
    decide
  rw [hccomp] at hinst
  injection hinst with h1 _
  exact (by decide : pyStrip cexReformResponse ≠ REFUSAL) h1

/-- C3: marker inference always lands in {10, 15, 20}; it depends on the
answer only through its word count; an explicit "20 marker" hint forces 20
regardless of word count; and absent any explicit marker hint the word count
maps 0–199 to 10, 200–329 to 15, and ≥ 330 to 20. -/
theorem C3_marker_inference (t a b : String) :
    (parse_marker_max t a = 10 ∨ parse_marker_max t a = 15 ∨ parse_marker_max t a = 20)
    ∧ (pyWordCount a = pyWordCount b → parse_marker_max t a = parse_marker_max t b)
    ∧ (subS "20 marker" (pyLower t) = true → parse_marker_max t a = 20)
    ∧ ((subS "20" (pyLower t) && subS "marker" (pyLower t)) = false →
       (subS "15" (pyLower t) && subS "marker" (pyLower t)) = false →
       (subS "10" (pyLower t) && subS "marker" (pyLower t)) = false →
       ((pyWordCount a < 200 → parse_marker_max t a = 10)
        ∧ (200 ≤ pyWordCount a → pyWordCount a < 330 → parse_marker_max t a = 15)
        ∧ (330 ≤ pyWordCount a → parse_marker_max t a = 20))) := by
  refine ⟨?_, ?_, ?_, ?_⟩
  · simp only [parse_marker_max]
    split_ifs <;> simp
  · intro h
    simp only [parse_marker_max, h]
  · intro hyp
    have h1 := subL_iff.mp hyp
    have h20 : subS "20" (pyLower t) = true :=
      subL_iff.mpr ((subL_iff.mp (by decide : subL "20".data "20 marker".data = true)).trans h1)
    have hm : subS "marker" (pyLower t) = true :=
      subL_iff.mpr
        ((subL_iff.mp (by decide : subL "marker".data "20 marker".data = true)).trans h1)
    simp [parse_marker_max, h20, hm]
  · intro h20 h15 h10
    refine ⟨?_, ?_, ?_⟩
    · intro hwc
      simp only [parse_marker_max, h20, h15, h10, Bool.false_eq_true, if_false]
      rw [if_neg (by omega), if_neg (by omega)]
    · intro hlo hhi
      simp only [parse_marker_max, h20, h15, h10, Bool.false_eq_true, if_false]
      rw [if_neg (by omega), if_pos (by omega)]
    · intro hwc
      simp only [parse_marker_max, h20, h15, h10, Bool.false_eq_true, if_false]
      rw [if_pos (by omega)]

/-- Witness for C3: the explicit-hint and word-count branches at concrete
inputs. -/
theorem C3_marker_inference_witness :
    parse_marker_max "20 marker" "short answer" = 20
    ∧ parse_marker_max "evaluate this" "one two three" = 10 :=
  ⟨(C3_marker_inference "20 marker" "short answer" "short answer").2.2.1 (by decide),
   ((C3_marker_inference "evaluate this" "one two three" "one two three").2.2.2
      (by decide) (by decide) (by decide)).1 (by decide)⟩

/-- Counterexample to C5 as stated: ten all-symbol tokens are "unreliable"
for the spec's classifier (zero recognizable word shapes, excessive symbol
density), yet the code's gate counts 10 words and proceeds to score. -/
theorem C5_claim_false : ¬ claimC5 := by
  intro h
  have hun := (h ⟨""⟩ cexSymbols "evaluate my answer").mpr (by decide)
  exact
    (by decide :
      ¬ (handle_photo_submission ⟨""⟩ cexSymbols "evaluate my answer").2
          = SubmitReply.unreadable)
    hun

/-- C5 (amended): the code's readability gate refuses scoring exactly when
the extracted text has fewer than 10 whitespace-delimited words (the empty
text included); no readable-ratio or symbol-density checks exist, and any
text with at least 10 words — symbols included — proceeds past the gate. -/
theorem C5_gate_is_word_count (ud : UserData) (text caption : String) :
    ((handle_photo_submission ud text caption).2 = SubmitReply.unreadable
      ↔ pyWordCount text < 10)
    ∧ ((handle_pdf_submission ud text caption).2 = SubmitReply.unreadable
      ↔ pyWordCount text < 10) := by
  constructor <;>
  · simp only [handle_photo_submission, handle_pdf_submission]
    by_cases h0 : text = ""
    · subst h0
      have h : pyWordCount "" = 0 := rfl
      simp [h]
    · by_cases hw : pyWordCount text < 10
      · simp [h0, hw]
      · have hcond : ¬ (text = "" ∨ pyWordCount text < 10) := by tauto
        rw [if_neg hcond]
        constructor
        · intro hcontra
          by_cases he : is_evaluation_request caption = true <;>
            simp [he] at hcontra
        · intro hcontra
          exact absurd hcontra hw

/-- C9: every student PDF, text-file, or photo submission overwrites the
per-user `last_answer_text` cache with the newly extracted (for TXT: cleaned)
text, independently of the previous cache contents and before any word-count
gate — extraction failures and sub-10-word texts replace the cache too. -/
theorem C9_cache_overwritten_first (ud : UserData) (extracted decoded caption : String) :
    ((handle_pdf_submission ud extracted caption).1.last_answer_text = extracted)
    ∧ ((handle_photo_submission ud extracted caption).1.last_answer_text = extracted)
    ∧ ((handle_txt_submission ud decoded caption).1.last_answer_text
        = clean_extracted_text decoded) :=
  ⟨rfl, rfl, rfl⟩

/-- C10: when an evaluation directive arrives as a text message, the inline
remainder (the text minus the directive lines) is evaluated iff it has at
least 30 words; otherwise the cached answer is evaluated, unless the cache is
empty or under 10 words, in which case a resubmission prompt (and no score)
is returned. -/
theorem C10_inline_vs_cached (message_text : String) (ud : UserData)
    (heval : is_evaluation_request (pyStrip message_text) = true) :
    (30 ≤ pyWordCount (strip_eval_directive (pyStrip message_text)) →
      handle_message_action message_text ud =
        MsgAction.evalInline (strip_eval_directive (pyStrip message_text))
          (parse_marker_max (pyStrip message_text)
            (strip_eval_directive (pyStrip message_text))))
    ∧ (pyWordCount (strip_eval_directive (pyStrip message_text)) < 30 →
        ((ud.last_answer_text = "" ∨ pyWordCount ud.last_answer_text < 10 →
           handle_message_action message_text ud = MsgAction.askResubmit)
         ∧ (ud.last_answer_text ≠ "" → 10 ≤ pyWordCount ud.last_answer_text →
           handle_message_action message_text ud =
             MsgAction.evalCached ud.last_answer_text
               (parse_marker_max (pyStrip message_text) ud.last_answer_text)))) := by
  constructor
  · intro h30
    simp [handle_message_action, heval, h30]
  · intro h30
    have hn : ¬ 30 ≤ pyWordCount (strip_eval_directive (pyStrip message_text)) := by omega
    constructor
    · intro hcache
      simp [handle_message_action, heval, hn, hcache]
    · intro hne h10
      have hc2 : ¬ (ud.last_answer_text = "" ∨ pyWordCount ud.last_answer_text < 10) := by
        push_neg
        exact ⟨hne, by omega⟩
      simp [handle_message_action, heval, hn, hc2]

/-- Witness for C10: a bare directive with an empty cache yields the
resubmission prompt. -/
theorem C10_inline_vs_cached_witness :
    handle_message_action "Evaluate my answer (10 marker)" ⟨""⟩ = MsgAction.askResubmit :=
  ((C10_inline_vs_cached "Evaluate my answer (10 marker)" ⟨""⟩ (by decide)).2
    (by decide)).1 (Or.inl rfl)

/-- Counterexample to C4 as stated: on a non-blank, readable, on-topic
31-word submission, a generation response reporting a zero total is returned
unchanged, so the reported total is 0, not strictly positive. -/
theorem C4_claim_false : ¬ claimC4 := by
  intro h
  exact Nat.lt_irrefl 0
    (h cexGenC4 cexAnswerC4 10 0 (by decide) (by decide) (by decide) (by decide))

/-- C4 (amended): the anti-zero policy is not enforced in code — on a
non-blank submission the engine returns the generation service's first
successful response verbatim (stripped), so the reported total is whatever
the service wrote, zero included. -/
theorem C4_no_antizero_clamp (gen : String → Nat → GenOutcome) (answer : String)
    (marker : Nat) (t : String)
    (h1 : pyStrip answer ≠ "")
    (h2 : gen (user_prompt marker (pyStrip answer)) 0 = GenOutcome.ok t) :
    evaluate_answer_sync gen answer marker = pyStrip t
    ∧ reportedTotal (evaluate_answer_sync gen answer marker) = reportedTotal (pyStrip t) := by
  have hres : evaluate_answer_sync gen answer marker = pyStrip t := by
    simp [evaluate_answer_sync, h1, evalTry, h2]
  exact ⟨hres, by rw [hres]⟩

/-- Witness for C4 (amended): a concrete response is passed through
verbatim. -/
theorem C4_no_antizero_clamp_witness :
    evaluate_answer_sync (fun _ _ => GenOutcome.ok "Estimated Score: 2 / 10")
      "A fine answer." 10 = "Estimated Score: 2 / 10" := by
  have h := C4_no_antizero_clamp (fun _ _ => GenOutcome.ok "Estimated Score: 2 / 10")
    "A fine answer." 10 "Estimated Score: 2 / 10" (by decide) rfl
  rw [h.1]
  decide

/-- Counterexample to C7 as stated: a successful generation response carrying
only a score line is rendered as-is, with none of the five rubric dimension
sub-scores. -/
theorem C7_claim_false : ¬ claimC7 := by
  intro h
  have hc := h cexGenC7 cexAnswerC7 10 "Estimated Score: 3 / 10\nGood attempt overall."
    (by decide) rfl
  exact
    (by decide : ¬ hasAllDims (evaluate_answer_sync cexGenC7 cexAnswerC7 10) = true) hc

/-- C7 (amended): the rendered evaluation is exactly the generation service's
response (stripped); the fixed evaluation prompt mandates sections A–G with a
single "Estimated Score: X / MAX" line and never requests dimension-level
sub-scores for Structure, Relevance, Content, Analysis or Presentation, so no
dimension-sum invariant is enforced. -/
theorem C7_no_dimension_contract (gen : String → Nat → GenOutcome) (answer : String)
    (marker : Nat) (t : String)
    (h1 : pyStrip answer ≠ "")
    (h2 : gen (user_prompt marker (pyStrip answer)) 0 = GenOutcome.ok t) :
    evaluate_answer_sync gen answer marker = pyStrip t
    ∧ subS "Structure" EVAL_SYSTEM_PROMPT = false
    ∧ subS "Relevance" EVAL_SYSTEM_PROMPT = false
    ∧ subS "Content" EVAL_SYSTEM_PROMPT = false
    ∧ subS "Analysis" EVAL_SYSTEM_PROMPT = false
    ∧ subS "Presentation" EVAL_SYSTEM_PROMPT = false := by
  refine ⟨?_, by decide, by decide, by decide, by decide, by decide⟩
  simp [evaluate_answer_sync, h1, evalTry, h2]

/-- Witness for C7 (amended). -/
theorem C7_no_dimension_contract_witness :
    evaluate_answer_sync (fun _ _ => GenOutcome.ok "Done.") "Some answer." 15 = "Done."
    ∧ subS "Relevance" EVAL_SYSTEM_PROMPT = false := by
  have h := C7_no_dimension_contract (fun _ _ => GenOutcome.ok "Done.") "Some answer." 15
    "Done." (by decide) rfl
  exact ⟨by rw [h.1]; decide, h.2.2.1⟩

/-- C8: both entry points always return a string, with the code's exact error
mapping — the answer path converts each raised error class to its fixed
message (connection, rate-limit, status-with-diagnostic, generic); the
evaluation path returns the fixed cannot-read message on blank input,
surfaces status and unknown errors immediately without retry, and retries
connection/rate-limit errors up to three attempts before surfacing the fixed
retry-later messages. -/
theorem C8_total_error_mapping (gen : String → GenOutcome)
    (egen : String → Nat → GenOutcome) (ut answer : String) (marker : Nat) :
    (∀ s q, docs_only_answer_sync gen ut = DocsOut.answer s q → docs_only_answer gen ut = s)
    ∧ (docs_only_answer_sync gen ut = DocsOut.raised ApiErr.conn →
        docs_only_answer gen ut = "⚠️ OpenAI connection error. Try again.")
    ∧ (docs_only_answer_sync gen ut = DocsOut.raised ApiErr.rate →
        docs_only_answer gen ut = "⚠️ Too many requests. Try again after 1 minute.")
    ∧ (∀ m, docs_only_answer_sync gen ut = DocsOut.raised (ApiErr.status m) →
        docs_only_answer gen ut = "⚠️ OpenAI API error: " ++ m)
    ∧ (docs_only_answer_sync gen ut = DocsOut.raised ApiErr.other →
        docs_only_answer gen ut = "Unexpected server error. Please try again.")
    ∧ (pyStrip answer = "" →
        evaluate_answer_sync egen answer marker =
          "⚠️ I couldn’t read any text from your answer. Please upload a clearer scan or paste typed text.")
    ∧ (pyStrip answer ≠ "" →
        (∀ t, egen (user_prompt marker (pyStrip answer)) 0 = GenOutcome.ok t →
          evaluate_answer_sync egen answer marker = pyStrip t)
        ∧ (∀ m, egen (user_prompt marker (pyStrip answer)) 0 = GenOutcome.statusError m →
          evaluate_answer_sync egen answer marker = "⚠️ OpenAI API error: " ++ m)
        ∧ (egen (user_prompt marker (pyStrip answer)) 0 = GenOutcome.otherError →
          evaluate_answer_sync egen answer marker =
            "Unexpected server error during evaluation. Please try again.")
        ∧ ((∀ i, i < 3 → egen (user_prompt marker (pyStrip answer)) i = GenOutcome.connError) →
          evaluate_answer_sync egen answer marker = "⚠️ OpenAI connection error. Try again.")
        ∧ ((∀ i, i < 3 → egen (user_prompt marker (pyStrip answer)) i = GenOutcome.rateLimit) →
          evaluate_answer_sync egen answer marker =
            "⚠️ Too many requests. Try again after 1 minute.")) := by
  refine ⟨?_, ?_, ?_, ?_, ?_, ?_, ?_⟩
  · intro s q h; simp [docs_only_answer, h]
  · intro h; simp [docs_only_answer, h]
  · intro h; simp [docs_only_answer, h]
  · intro m h; simp [docs_only_answer, h]
  · intro h; simp [docs_only_answer, h]
  · intro h; simp [evaluate_answer_sync, h]
  · intro h1
    refine ⟨?_, ?_, ?_, ?_, ?_⟩
    · intro t h2; simp [evaluate_answer_sync, h1, evalTry, h2]
    · intro m h2; simp [evaluate_answer_sync, h1, evalTry, h2]
    · intro h2; simp [evaluate_answer_sync, h1, evalTry, h2]
    · intro h2
      simp [evaluate_answer_sync, h1, evalTry,
        h2 0 (by omega), h2 1 (by omega), h2 2 (by omega)]
    · intro h2
      simp [evaluate_answer_sync, h1, evalTry,
        h2 0 (by omega), h2 1 (by omega), h2 2 (by omega)]

/-- Witness for C8: a permanently failing connection yields the fixed
retry-later messages on both paths. -/
theorem C8_total_error_mapping_witness :
    docs_only_answer (fun _ => GenOutcome.connError) "question"
        = "⚠️ OpenAI connection error. Try again."
    ∧ evaluate_answer_sync (fun _ _ => GenOutcome.connError) "my answer" 10
        = "⚠️ OpenAI connection error. Try again." := by
  have h := C8_total_error_mapping (fun _ => GenOutcome.connError)
    (fun _ _ => GenOutcome.connError) "question" "my answer" 10
  exact ⟨h.2.1 (by decide),
    ((h.2.2.2.2.2.2 (by decide)).2.2.2.1 (fun i _ => rfl))⟩

/-! ### Segmenter lemmas (towards C6) -/

theorem mem_of_getLastQ {α : Type} {l : List α} {a : α} (h : l.getLast? = some a) : a ∈ l := by
  have hm := List.mem_getLast?_eq_getLast (l := l) (x := a) (by simpa [Option.mem_def] using h)
  obtain ⟨hh, rfl⟩ := hm
  exact List.getLast_mem hh

/-- What a successful `pyRfind` guarantees: the occurrence fits inside the
searched slice and matches. -/
theorem pyRfind_spec {needle l : List Char} {e i : Nat}
    (h : pyRfind needle l e = some i) :
    i + needle.length ≤ min e l.length ∧ isPre needle (l.drop i) = true := by
  have hmem := mem_of_getLastQ h
  have := List.mem_filter.mp hmem
  obtain ⟨-, hp⟩ := this
  rw [Bool.and_eq_true, decide_eq_true_eq] at hp
  exact hp

theorem computeCut_le (remaining : List Char) (limit : Nat) :
    computeCut remaining limit ≤ limit := by
  unfold computeCut
  cases h2 : pyRfind ['\n', '\n'] remaining limit with
  | some i =>
    have hle := (pyRfind_spec h2).1
    by_cases hi : i < 800
    · simp only [hi, if_true]
      cases h1 : pyRfind ['\n'] remaining limit with
      | some j =>
        have hj := (pyRfind_spec h1).1
        by_cases hjlt : j < 800
        · simp [hjlt]
        · simp only [hjlt, if_false]
          omega
      | none => simp
    · simp only [hi, if_false]
      omega
  | none =>
    cases h1 : pyRfind ['\n'] remaining limit with
    | some j =>
      have hj := (pyRfind_spec h1).1
      by_cases hjlt : j < 800
      · simp [hjlt]
      · simp only [hjlt, if_false]
        omega
    | none => simp

theorem computeCut_pos (remaining : List Char) (limit : Nat) (hlim : 1 ≤ limit) :
    1 ≤ computeCut remaining limit := by
  unfold computeCut
  cases h2 : pyRfind ['\n', '\n'] remaining limit with
  | some i =>
    by_cases hi : i < 800
    · simp only [hi, if_true]
      cases h1 : pyRfind ['\n'] remaining limit with
      | some j =>
        by_cases hjlt : j < 800
        · simpa [hjlt] using hlim
        · simp only [hjlt, if_false]
          omega
      | none => simpa using hlim
    · simp only [hi, if_false]
      omega
  | none =>
    cases h1 : pyRfind ['\n'] remaining limit with
    | some j =>
      by_cases hjlt : j < 800
      · simpa [hjlt] using hlim
      · simp only [hjlt, if_false]
        omega
    | none => simpa using hlim

theorem length_pyRstripL_le (l : List Char) : (pyRstripL l).length ≤ l.length := by
  unfold pyRstripL
  calc ((l.reverse.dropWhile pyIsSpace).reverse).length
      = (l.reverse.dropWhile pyIsSpace).length := List.length_reverse _
    _ ≤ l.reverse.length := (List.dropWhile_sublist _).length_le
    _ = l.length := List.length_reverse _

theorem length_pyLstripL_le (l : List Char) : (pyLstripL l).length ≤ l.length :=
  (List.dropWhile_sublist _).length_le

/-- `rstrip` decomposition: the original is the stripped part plus trailing
whitespace. -/
theorem pyRstripL_decomp (l : List Char) :
    ∃ w, l = pyRstripL l ++ w ∧ ∀ c ∈ w, pyIsSpace c = true := by
  refine ⟨(l.reverse.takeWhile pyIsSpace).reverse, ?_, ?_⟩
  · have h := List.takeWhile_append_dropWhile (p := pyIsSpace) (l := l.reverse)
    have h2 := congrArg List.reverse h
    rw [List.reverse_append, List.reverse_reverse] at h2
    exact h2.symm
  · intro c hc
    rw [List.mem_reverse] at hc
    exact List.mem_takeWhile_imp hc

/-- `lstrip` decomposition: the original is leading whitespace plus the
stripped part. -/
theorem pyLstripL_decomp (l : List Char) :
    ∃ w, l = w ++ pyLstripL l ∧ ∀ c ∈ w, pyIsSpace c = true := by
  refine ⟨l.takeWhile pyIsSpace, (List.takeWhile_append_dropWhile _ _).symm, ?_⟩
  intro c hc
  exact List.mem_takeWhile_imp hc

/-- Every chunk the segmenter loop produces fits within the limit. -/
theorem splitLoop_bound (limit : Nat) (hlim : 1 ≤ limit) :
    ∀ (fuel : Nat) (remaining : List Char), remaining.length ≤ fuel →
      ∀ c ∈ splitLoop limit fuel remaining, c.length ≤ limit := by
  intro fuel
  induction fuel with
  | zero =>
    intro remaining hlen c hc
    have h0 : remaining = [] := List.length_eq_zero.mp (Nat.le_zero.mp hlen)
    subst h0
    simp [splitLoop] at hc
  | succ fuel ih =>
    intro remaining hlen c hc
    rw [splitLoop] at hc
    by_cases hle : remaining.length ≤ limit
    · rw [if_pos hle] at hc
      by_cases hemp : remaining.isEmpty
      · simp [hemp] at hc
      · simp [hemp] at hc
        subst hc
        exact hle
    · rw [if_neg hle] at hc
      simp only [List.mem_cons] at hc
      rcases hc with hc | hc
      · subst hc
        calc (pyRstripL (remaining.take (computeCut remaining limit))).length
            ≤ (remaining.take (computeCut remaining limit)).length :=
              length_pyRstripL_le _
          _ ≤ computeCut remaining limit := by
              rw [List.length_take]; omega
          _ ≤ limit := computeCut_le remaining limit
      · refine ih (pyLstripL (remaining.drop (computeCut remaining limit))) ?_ c hc
        have hcut := computeCut_pos remaining limit hlim
        have hdrop : (remaining.drop (computeCut remaining limit)).length
            = remaining.length - computeCut remaining limit := List.length_drop _ _
        have := length_pyLstripL_le (remaining.drop (computeCut remaining limit))
        omega

/-- The segmenter loop is lossless: re-inserting the whitespace trimmed at
each cut reconstructs the input exactly. -/
theorem splitLoop_lossless (limit : Nat) (hlim : 1 ≤ limit) :
    ∀ (fuel : Nat) (remaining : List Char), remaining.length ≤ fuel →
      ∃ seps : List (List Char),
        seps.length = (splitLoop limit fuel remaining).length
        ∧ (∀ s ∈ seps, ∀ c ∈ s, pyIsSpace c = true)
        ∧ joinCS (splitLoop limit fuel remaining) seps = remaining := by
  intro fuel
  induction fuel with
  | zero =>
    intro remaining hlen
    have h0 : remaining = [] := List.length_eq_zero.mp (Nat.le_zero.mp hlen)
    subst h0
    exact ⟨[], by simp [splitLoop], by simp, by simp [splitLoop, joinCS]⟩
  | succ fuel ih =>
    intro remaining hlen
    rw [splitLoop]
    by_cases hle : remaining.length ≤ limit
    · rw [if_pos hle]
      by_cases hemp : remaining.isEmpty
      · refine ⟨[], by simp [hemp], by simp, ?_⟩
        simp only [hemp, if_true, joinCS]
        exact (List.isEmpty_iff.mp hemp).symm
      · exact ⟨[[]], by simp [hemp], by simp, by simp [hemp, joinCS]⟩
    · rw [if_neg hle]
      set cut := computeCut remaining limit with hcutdef
      obtain ⟨sepsT, hlenT, hwsT, hjoinT⟩ :=
        ih (pyLstripL (remaining.drop cut)) (by
          have hcut := computeCut_pos remaining limit hlim
          have hdrop : (remaining.drop cut).length = remaining.length - cut :=
            List.length_drop _ _
          have := length_pyLstripL_le (remaining.drop cut)
          omega)
      obtain ⟨w1, hw1, hw1s⟩ := pyRstripL_decomp (remaining.take cut)
      obtain ⟨w2, hw2, hw2s⟩ := pyLstripL_decomp (remaining.drop cut)
      refine ⟨(w1 ++ w2) :: sepsT, by simp [hlenT], ?_, ?_⟩
      · intro s hs c hc
        rcases List.mem_cons.mp hs with hs | hs
        · subst hs
          rcases List.mem_append.mp hc with hc | hc
          · exact hw1s c hc
          · exact hw2s c hc
        · exact hwsT s hs c hc
      · simp only [joinCS]
        rw [hjoinT]
        conv_rhs => rw [← List.take_append_drop cut remaining, hw1, hw2]
        simp [List.append_assoc]

/-- C6: the output segmenter at the configured limit 3900 — no chunk exceeds
the limit, an input within the limit is returned as the single identical
chunk, and interleaving the chunks with the whitespace trimmed at the cut
points reconstructs the input exactly. -/
theorem C6_segmenter_bounded_lossless (text : String) :
    (∀ c ∈ split_telegram_chunks text 3900, c.length ≤ 3900)
    ∧ (text.length ≤ 3900 → split_telegram_chunks text 3900 = [text])
    ∧ (∃ seps : List (List Char),
        seps.length = (split_telegram_chunks text 3900).length
        ∧ (∀ s ∈ seps, ∀ ch ∈ s, pyIsSpace ch = true)
        ∧ joinCS ((split_telegram_chunks text 3900).map String.data) seps = text.data) := by
  have hmapdata : ∀ L : List (List Char),
      (L.map (fun l => String.mk l)).map String.data = L := by
    intro L
    induction L with
    | nil => rfl
    | cons a t iht => simp [iht]
  by_cases hle : text.length ≤ 3900
  · refine ⟨?_, fun _ => by simp [split_telegram_chunks, hle], ?_⟩
    · intro c hc
      simp only [split_telegram_chunks, hle, if_true, List.mem_singleton] at hc
      subst hc
      exact hle
    · refine ⟨[[]], by simp [split_telegram_chunks, hle], by simp, ?_⟩
      simp [split_telegram_chunks, hle, joinCS]
  · have hlim : (1 : Nat) ≤ 3900 := by omega
    refine ⟨?_, fun h => absurd h hle, ?_⟩
    · intro c hc
      simp only [split_telegram_chunks, hle, if_false] at hc
      obtain ⟨l, hl, rfl⟩ := List.mem_map.mp hc
      exact splitLoop_bound 3900 hlim text.data.length text.data (le_refl _) l hl
    · obtain ⟨seps, h1, h2, h3⟩ :=
        splitLoop_lossless 3900 hlim text.data.length text.data (le_refl _)
      refine ⟨seps, ?_, h2, ?_⟩
      · simp [split_telegram_chunks, hle, h1]
      · simp only [split_telegram_chunks, hle, if_false]
        rw [hmapdata]
        exact h3

/-- Witness for C6: an input within the limit is returned unchanged. -/
theorem C6_segmenter_witness :
    split_telegram_chunks "Introduction and Conclusion." 3900
      = ["Introduction and Conclusion."] :=
  (C6_segmenter_bounded_lossless "Introduction and Conclusion.").2.1 (by decide)

end PastPulse
